import Mathlib

/-!
Verification of the recording-session lifecycle and step-assembly pipeline
of the Acro backend (Flask + SQLAlchemy), via a shallow embedding in Lean.

The embedding follows `backend/routes/recording.py`, `backend/routes/folders.py`,
`backend/routes/projects.py`, `backend/services/tts_service.py` and the models
in `backend/models/`.  External collaborators (image storage, gTTS synthesis,
thumbnail derivation, clock, uuid generation) are modelled as oracle values
passed per call, mirroring exactly how their results flow through the code.
Python dictionaries that gain keys dynamically (the per-session dict in
`active_sessions`) are modelled as structures with `Option` fields, where
`none` models an absent key, matching `dict.get` semantics.
-/

namespace Acro

/-- `models/step.py`: the `ActionType` enum (`click`, `scroll`). -/
inductive ActionType where
  | click
  | scroll
deriving DecidableEq, Repr

/-- The `.value` of an `ActionType` member. -/
def ActionType.value : ActionType → String
  | .click => "click"
  | .scroll => "scroll"

/-- `ActionType(data['actionType'])`: Python enum lookup by value; raises
(`none`) when the string is not a member value. -/
def ActionType.ofString (s : String) : Option ActionType :=
  if s = "click" then some .click
  else if s = "scroll" then some .scroll
  else none

/-- `models/folder.py`: the `FolderType` enum (`system`, `user`). -/
inductive FolderType where
  | system
  | user
deriving DecidableEq, Repr

/-- `models/folder.py`: a folder row (id, name, type). -/
structure Folder where
  id : Nat
  name : String
  type : FolderType
deriving DecidableEq, Repr

/-- `models/project.py`: a project row.  `deleted_at` is an abstract
timestamp; `none` means not soft-deleted. -/
structure Project where
  id : Nat
  uuid : String
  title : String
  folder_id : Nat
  thumbnail_url : Option String := none
  deleted_at : Option Nat := none
deriving DecidableEq, Repr

/-- `models/step.py`: a step row. -/
structure Step where
  id : Nat
  project_id : Nat
  order_index : Int
  action_type : ActionType
  target_text : String
  script_text : String
  audio_url : Option String
  image_url : String
  pos_x : Int
  pos_y : Int
  duration_frames : Int
deriving DecidableEq, Repr

/-- The relational store owned by SQLAlchemy: the three tables plus
autoincrement counters for primary keys. -/
structure Db where
  folders : List Folder := []
  projects : List Project := []
  steps : List Step := []
  next_folder_id : Nat := 1
  next_project_id : Nat := 1
  next_step_id : Nat := 1
deriving Repr

/-- One entry of `active_sessions` in `routes/recording.py`: the dict created
by `start_recording` holds `project_id`, `step_count`, `first_image_url`
(the `session_id` key merely repeats the mapping key); the keys `status`
and `project_uuid` are added later by `stop`/`finish`, so they are `Option`s
whose `none` models an absent key, as read by `session.get`. -/
structure Session where
  project_id : Option Nat := none
  step_count : Nat := 0
  first_image_url : Option String := none
  status : Option String := none
  project_uuid : Option String := none
deriving DecidableEq, Repr

/-- Whole-server state: the database plus the in-memory `active_sessions`
mapping.  Session ids (uuid4 strings in Python) are modelled as the values
of a fresh-id counter. -/
structure RecState where
  db : Db
  sessions : Nat → Option Session
  next_session_id : Nat := 0

/-- Replace the binding of one session id (in-place dict mutation). -/
def RecState.setSession (S : RecState) (sid : Nat) (s : Session) : RecState :=
  { S with sessions := fun k => if k = sid then some s else S.sessions k }

/-- `del active_sessions[session_id]`. -/
def RecState.delSession (S : RecState) (sid : Nat) : RecState :=
  { S with sessions := fun k => if k = sid then none else S.sessions k }

/-- `recording.py` lines 45-62: `start_recording` generates a fresh session id
and stores a dict with `project_id=None`, `step_count=0`,
`first_image_url=None` (and no `status` key).  Returns the new id. -/
def start_recording (S : RecState) : RecState × Nat :=
  let sid := S.next_session_id
  ({ S with
      sessions := fun k => if k = sid then
          some { project_id := none, step_count := 0, first_image_url := none }
        else S.sessions k,
      next_session_id := sid + 1 }, sid)

/-- The JSON body of a `/chunk` request; every field is optional because the
route checks presence itself. -/
structure ChunkRequest where
  sessionId : Option Nat := none
  orderIndex : Option Int := none
  actionType : Option String := none
  targetText : Option String := none
  posX : Option Int := none
  posY : Option Int := none
  screenshotBase64 : Option String := none
deriving DecidableEq, Repr

/-- Oracle values consumed by one `upload_chunk` call: the result of
`storage_service.save_image` (a `ValueError` message or the stored url), the
result of `tts_service.generate_audio` (audio url and duration frames, or
`None`), the formatted timestamp used in the lazily created project title,
and the uuid4 assigned to that project. -/
structure ChunkEnv where
  image_save : Except String String
  tts : Option (String × Int) := none
  now : String := ""
  project_uuid : String := ""
deriving Repr

/-- Response of `/chunk`, reduced to the fields the spec talks about. -/
structure ChunkResponse where
  code : Nat
  status : Option String := none
  stepId : Option Nat := none
  imageUrl : Option String := none
  error : Option String := none
deriving DecidableEq, Repr

/-- `recording.py` lines 167-177 (also 302-313): the default-folder query
`Folder.name == 'All Flows' and Folder.type == SYSTEM`, `.first()`. -/
def find_default_folder (db : Db) : Option Folder :=
  db.folders.find? (fun f => f.name = "All Flows" ∧ f.type = FolderType.system)

/-- `recording.py` lines 72-248: `upload_chunk`.  `data = none` models a
missing/empty JSON body (falsy `data`).  Mirrors the code's order of effects:
field validation, session lookup, image save, `first_image_url` recording,
lazy project (and default-folder) creation, script-text derivation, TTS, and
finally the step insert; an invalid `actionType` string raises inside the
`Step(...)` constructor, which the generic handler turns into a 500 after the
project commit and in-memory session mutations already happened. -/
def upload_chunk (S : RecState) (data : Option ChunkRequest) (env : ChunkEnv) :
    RecState × ChunkResponse :=
  match data with
  | none => (S, { code := 400, error := some "Request body must contain JSON data" })
  | some r =>
    if r.sessionId.isNone ∨ r.orderIndex.isNone ∨ r.actionType.isNone ∨
        r.posX.isNone ∨ r.posY.isNone ∨ r.screenshotBase64.isNone then
      (S, { code := 400, error := some "Missing required fields" })
    else
      let sid := r.sessionId.getD 0
      match S.sessions sid with
      | none => (S, { code := 400, error := some "Invalid session ID" })
      | some session =>
        match env.image_save with
        | .error e => (S, { code := 400, error := some ("Invalid Base64 image data: " ++ e) })
        | .ok image_url =>
          let session :=
            if session.first_image_url.isNone then
              { session with first_image_url := some image_url }
            else session
          let (db, session) :=
            match session.project_id with
            | some _ => (S.db, session)
            | none =>
              let (db, folder) :=
                match find_default_folder S.db with
                | some f => (S.db, f)
                | none =>
                  let f : Folder :=
                    { id := S.db.next_folder_id, name := "All Flows", type := FolderType.system }
                  ({ S.db with
                      folders := S.db.folders ++ [f],
                      next_folder_id := S.db.next_folder_id + 1 }, f)
              let p : Project :=
                { id := db.next_project_id, uuid := env.project_uuid,
                  title := "New Demo - " ++ env.now, folder_id := folder.id }
              ({ db with
                  projects := db.projects ++ [p],
                  next_project_id := db.next_project_id + 1 },
               { session with project_id := some p.id })
          let target_text := r.targetText.getD ""
          let script_text :=
            if target_text ≠ "" then "Click on " ++ target_text
            else "Perform " ++ r.actionType.getD "" ++ " action"
          let audio_url : Option String :=
            match env.tts with | some (u, _) => some u | none => none
          let duration_frames : Int :=
            match env.tts with | some (_, d) => d | none => 90
          match ActionType.ofString (r.actionType.getD "") with
          | none =>
            ({ S with db := db }.setSession sid session,
             { code := 500, error := some "Failed to upload chunk" })
          | some act =>
            let st : Step :=
              { id := db.next_step_id, project_id := session.project_id.getD 0,
                order_index := r.orderIndex.getD 0, action_type := act,
                target_text := target_text, script_text := script_text,
                audio_url := audio_url, image_url := image_url,
                pos_x := r.posX.getD 0, pos_y := r.posY.getD 0,
                duration_frames := duration_frames }
            let db :=
              { db with
                  steps := db.steps ++ [st],
                  next_step_id := db.next_step_id + 1 }
            let session := { session with step_count := session.step_count + 1 }
            ({ S with db := db }.setSession sid session,
             { code := 200, status := some "saved", stepId := some st.id,
               imageUrl := some image_url })

/-- Oracle values consumed by one `stop_recording` call: the formatted
timestamp for the title and the uuid4 of the empty project, used only when
no chunk ever created a project. -/
structure StopEnv where
  now : String := ""
  project_uuid : String := ""
deriving DecidableEq, Repr

/-- Response of `/stop`, reduced to the fields the spec talks about. -/
structure StopResponse where
  code : Nat
  projectId : Option Nat := none
  uuid : Option String := none
  redirectUrl : Option String := none
  status : Option String := none
  error : Option String := none
deriving DecidableEq, Repr

/-- `recording.py` lines 251-368: `stop_recording`.  `data = none` models a
body without a `sessionId` key.  If the session never created a project,
an empty project is created in the default folder (500 if that folder is
missing); otherwise the existing project row is looked up (404 if absent).
On success the session gets `status='uploading'` and `project_uuid`, and the
response carries the project identity and a redirect url containing the
uuid. -/
def stop_recording (S : RecState) (data : Option Nat) (env : StopEnv) :
    RecState × StopResponse :=
  match data with
  | none => (S, { code := 400, error := some "Missing required field: sessionId" })
  | some sid =>
    match S.sessions sid with
    | none => (S, { code := 400, error := some "Invalid session ID" })
    | some session =>
      let result : Option (Db × Session × Project) :=
        match session.project_id with
        | none =>
          match find_default_folder S.db with
          | none => none
          | some f =>
            let p : Project :=
              { id := S.db.next_project_id, uuid := env.project_uuid,
                title := "New Demo - " ++ env.now, folder_id := f.id }
            some ({ S.db with
                      projects := S.db.projects ++ [p],
                      next_project_id := S.db.next_project_id + 1 },
                  { session with project_id := some p.id }, p)
        | some pid =>
          match S.db.projects.find? (fun p => p.id = pid) with
          | none => none
          | some p => some (S.db, session, p)
      match session.project_id, result with
      | none, none => (S, { code := 500, error := some "Default folder not found" })
      | some _, none => (S, { code := 404, error := some "Project not found" })
      | _, some (db, session, p) =>
        let session := { session with status := some "uploading", project_uuid := some p.uuid }
        ({ S with db := db }.setSession sid session,
         { code := 200, projectId := some p.id, uuid := some p.uuid,
           redirectUrl := some ("http://localhost:3000/editor/" ++ p.uuid),
           status := some "uploading" })

/-- Response of `/finish`. -/
structure FinishResponse where
  code : Nat
  status : Option String := none
  error : Option String := none
deriving DecidableEq, Repr

/-- `recording.py` lines 371-397: `finish_recording`.  Transitions the session
to `processing` only when its current status is `uploading`; always answers
`processing` for a live session. -/
def finish_recording (S : RecState) (data : Option Nat) : RecState × FinishResponse :=
  match data with
  | none => (S, { code := 400, error := some "Bad Request" })
  | some sid =>
    match S.sessions sid with
    | none => (S, { code := 400, error := some "Invalid session" })
    | some session =>
      let S' :=
        if session.status = some "uploading" then
          S.setSession sid { session with status := some "processing" }
        else S
      (S', { code := 200, status := some "processing" })

/-- Response of `/status/<session_id>`. -/
structure PollResponse where
  code : Nat
  status : Option String := none
  projectId : Option Nat := none
  uuid : Option String := none
  stepCount : Option Nat := none
  message : Option String := none
  error : Option String := none
deriving DecidableEq, Repr

/-- `recording.py` lines 400-476: `get_recording_status`.  `thumb` is the
oracle for `storage_service.generate_thumbnail` (url, or a raised error).
An absent session answers `completed` unconditionally.  Status `uploading`
answers `processing` with no state change.  Status `processing` finalizes:
thumbnail derivation if the project lacks one and a first image exists (a
failure there lands in the except branch, which still deletes the session and
answers `completed` with a warning), then the session is deleted and
`completed` is returned with the project identity; if the project row is
missing, reading `project.id` for the response raises, and the except
branch's second `del` on the already-deleted key raises `KeyError`, which the
outer handler turns into a 500 — with the session nevertheless deleted.
Any other (or absent) status is echoed with default `processing`. -/
def get_recording_status (S : RecState) (sid : Nat) (thumb : Except Unit String) :
    RecState × PollResponse :=
  match S.sessions sid with
  | none =>
    (S, { code := 200, status := some "completed",
          message := some "Session completed or not found" })
  | some session =>
    if session.status = some "uploading" then
      (S, { code := 200, status := some "processing",
            projectId := session.project_id, uuid := session.project_uuid,
            stepCount := some session.step_count })
    else if session.status = some "processing" then
      let project? : Option Project :=
        match session.project_id with
        | none => none
        | some pid => S.db.projects.find? (fun p => p.id = pid)
      match project? with
      | some p =>
        if p.thumbnail_url.isNone ∧ session.first_image_url.isSome then
          match thumb with
          | .ok turl =>
            let db :=
              { S.db with
                  projects := S.db.projects.map
                    (fun q => if q.id = p.id then { q with thumbnail_url := some turl } else q) }
            ({ S with db := db }.delSession sid,
             { code := 200, status := some "completed", projectId := some p.id,
               uuid := some p.uuid, stepCount := some session.step_count })
          | .error _ =>
            (S.delSession sid,
             { code := 200, status := some "completed",
               message := some "Processing completed with warnings" })
        else
          (S.delSession sid,
           { code := 200, status := some "completed", projectId := some p.id,
             uuid := some p.uuid, stepCount := some session.step_count })
      | none =>
        (S.delSession sid,
         { code := 500, error := some "Failed to get recording status" })
    else
      (S, { code := 200, status := some (session.status.getD "processing"),
            projectId := session.project_id, uuid := session.project_uuid,
            stepCount := some session.step_count })

/-- Repeated polling of one session id, one thumbnail oracle per call;
returns the final state and the list of responses. -/
def poll_iter (S : RecState) (sid : Nat) : List (Except Unit String) → RecState × List PollResponse
  | [] => (S, [])
  | t :: ts =>
    let (S1, r) := get_recording_status S sid t
    let (S2, rs) := poll_iter S1 sid ts
    (S2, r :: rs)

/-- Response of `DELETE /folders/<id>`. -/
structure FolderDeleteResponse where
  code : Nat
  message : Option String := none
  error : Option String := none
  folderId : Option Nat := none
deriving DecidableEq, Repr

/-- `folders.py` lines 233-292: `delete_folder`.  404 when the folder does not
exist; 400 (protected) when its type is `system`; otherwise the row is hard
deleted. -/
def delete_folder (db : Db) (folder_id : Nat) : Db × FolderDeleteResponse :=
  match db.folders.find? (fun f => f.id = folder_id) with
  | none => (db, { code := 404, error := some "Not Found",
                   message := some "Folder not found" })
  | some f =>
    if f.type = FolderType.system then
      (db, { code := 400, error := some "Bad Request",
             message := some "Cannot delete system folder" })
    else
      ({ db with folders := db.folders.filter (fun g => ¬ g.id = folder_id) },
       { code := 200, message := some "Folder deleted successfully",
         folderId := some folder_id })

/-- Stable insertion of a step into a list ascending in `order_index`
(inserted after existing steps with an equal index). -/
def insert_step (s : Step) : List Step → List Step
  | [] => [s]
  | t :: ts => if s.order_index < t.order_index then s :: t :: ts else t :: insert_step s ts

/-- `ORDER BY order_index` as used by `Project.to_dict(include_steps=True)`. -/
def sort_steps : List Step → List Step
  | [] => []
  | s :: ss => insert_step s (sort_steps ss)

/-- `projects.py` lines 299-323 (`get_project_details`, integer-id form)
combined with `Project.to_dict(include_steps=True)` in `models/project.py`:
the project row, its steps sorted by `order_index`, and
`totalDurationFrames` as the sum of the steps' `durationFrames`. -/
def get_project_details (db : Db) (project_id : Nat) :
    Option (Project × List Step × Int) :=
  match db.projects.find? (fun p => p.id = project_id) with
  | none => none
  | some p =>
    let steps := sort_steps (db.steps.filter (fun st => st.project_id = p.id))
    some (p, steps, (steps.map (fun st => st.duration_frames)).sum)

/-- `tts_service.py` lines 94-127: `calculate_duration_frames`.  The measured
audio length in seconds is a rational; `none` models the exception path
(mutagen failure), which returns the 90-frame fallback.  Otherwise the
duration is `ceil(seconds * fps)`. -/
def calculate_duration_frames (fps : Nat) (length? : Option ℚ) : Int :=
  match length? with
  | none => 90
  | some s => ⌈s * (fps : ℚ)⌉

/-- `if not text or not text.strip()`: true for the empty string and for
strings of whitespace only. -/
def is_blank (text : String) : Bool :=
  text.toList.all Char.isWhitespace

/-- `tts_service.py` lines 46-92: `generate_audio`.  Returns `none` on blank
text or when synthesis raises (`synth = none`); on success the oracle supplies
the stored audio url and the measured length handed to
`calculate_duration_frames`. -/
def generate_audio (fps : Nat) (text : String) (synth : Option (String × Option ℚ)) :
    Option (String × Int) :=
  if is_blank text then none
  else
    match synth with
    | none => none
    | some (url, length?) => some (url, calculate_duration_frames fps length?)

/-- A chunk request with all required fields present and a valid action type,
as sent by the capture client. -/
structure ValidChunk where
  sessionId : Nat
  orderIndex : Int
  actionType : ActionType
  targetText : Option String := none
  posX : Int
  posY : Int
  screenshotBase64 : String
deriving DecidableEq, Repr

/-- The JSON body carrying a `ValidChunk`. -/
def ValidChunk.toRequest (c : ValidChunk) : ChunkRequest :=
  { sessionId := some c.sessionId, orderIndex := some c.orderIndex,
    actionType := some c.actionType.value, targetText := c.targetText,
    posX := some c.posX, posY := some c.posY,
    screenshotBase64 := some c.screenshotBase64 }

/-- A sequence of chunk uploads, each with its oracle values. -/
def upload_list (S : RecState) (calls : List (ValidChunk × ChunkEnv)) : RecState :=
  calls.foldl (fun s c => (upload_chunk s (some c.1.toRequest) c.2).1) S

/-- Enum round-trip: looking up a member's `.value` yields the member. -/
theorem ofString_value (a : ActionType) : ActionType.ofString a.value = some a := by
  cases a <;> rfl

/-- A chunk upload for a live session that already has a backing project:
no project is created, exactly one step is appended carrying the supplied
`orderIndex` and the same project id, and the session keeps its project id. -/
theorem upload_chunk_next (S : RecState) (c : ValidChunk) (env : ChunkEnv) (sess : Session)
    (url : String) (pid : Nat)
    (hs : S.sessions c.sessionId = some sess) (hp : sess.project_id = some pid)
    (himg : env.image_save = .ok url) :
    ∃ st : Step, st.project_id = pid ∧ st.order_index = c.orderIndex ∧
      (upload_chunk S (some c.toRequest) env).1.db.projects = S.db.projects ∧
      (upload_chunk S (some c.toRequest) env).1.db.steps = S.db.steps ++ [st] ∧
      ∃ sess', (upload_chunk S (some c.toRequest) env).1.sessions c.sessionId = some sess' ∧
        sess'.project_id = some pid := by
  cases hfi : sess.first_image_url with
  | none =>
    simp [upload_chunk, ValidChunk.toRequest, hs, himg, hp, hfi, ofString_value,
      RecState.setSession]
  | some v =>
    simp [upload_chunk, ValidChunk.toRequest, hs, himg, hp, hfi, ofString_value,
      RecState.setSession]

/-- The first chunk upload of a session: exactly one project is appended, its
id is the next free project id, and the one appended step belongs to it. -/
theorem upload_chunk_first (S : RecState) (c : ValidChunk) (env : ChunkEnv) (sess : Session)
    (url : String)
    (hs : S.sessions c.sessionId = some sess) (hp : sess.project_id = none)
    (himg : env.image_save = .ok url) :
    ∃ p : Project, ∃ st : Step, p.id = S.db.next_project_id ∧
      st.project_id = p.id ∧ st.order_index = c.orderIndex ∧
      (upload_chunk S (some c.toRequest) env).1.db.projects = S.db.projects ++ [p] ∧
      (upload_chunk S (some c.toRequest) env).1.db.steps = S.db.steps ++ [st] ∧
      ∃ sess', (upload_chunk S (some c.toRequest) env).1.sessions c.sessionId = some sess' ∧
        sess'.project_id = some p.id := by
  cases hfi : sess.first_image_url with
  | none =>
    cases hdf : find_default_folder S.db with
    | none =>
      simp [upload_chunk, ValidChunk.toRequest, hs, himg, hp, hfi, hdf, ofString_value,
        RecState.setSession]
      exact ⟨_, rfl, _, rfl, rfl, rfl, rfl, rfl⟩
    | some f =>
      simp [upload_chunk, ValidChunk.toRequest, hs, himg, hp, hfi, hdf, ofString_value,
        RecState.setSession]
      exact ⟨_, rfl, _, rfl, rfl, rfl, rfl, rfl⟩
  | some v =>
    cases hdf : find_default_folder S.db with
    | none =>
      simp [upload_chunk, ValidChunk.toRequest, hs, himg, hp, hfi, hdf, ofString_value,
        RecState.setSession]
      exact ⟨_, rfl, _, rfl, rfl, rfl, rfl, rfl⟩
    | some f =>
      simp [upload_chunk, ValidChunk.toRequest, hs, himg, hp, hfi, hdf, ofString_value,
        RecState.setSession]
      exact ⟨_, rfl, _, rfl, rfl, rfl, rfl, rfl⟩

/-- Folding further valid uploads over a session that already owns project
`pid` leaves the project table unchanged and appends exactly the uploaded
steps (with their supplied order indexes, in arrival order) to that
project. -/
theorem upload_list_inv (sid pid : Nat) (rest : List (ValidChunk × ChunkEnv)) :
    ∀ (S : RecState) (sess : Session),
      S.sessions sid = some sess → sess.project_id = some pid →
      (∀ x ∈ rest, x.1.sessionId = sid) →
      (∀ x ∈ rest, ∃ url, x.2.image_save = .ok url) →
      (upload_list S rest).db.projects = S.db.projects ∧
      ((upload_list S rest).db.steps.filter (fun st => st.project_id = pid)).map
          (fun st => st.order_index)
        = ((S.db.steps.filter (fun st => st.project_id = pid)).map (fun st => st.order_index))
          ++ rest.map (fun x => x.1.orderIndex) := by
  induction rest with
  | nil => intro S sess hs hp _ _; simp [upload_list]
  | cons x rest ih =>
    intro S sess hs hp hsid himg
    obtain ⟨url, hurl⟩ := himg x (by simp)
    have hx : x.1.sessionId = sid := hsid x (by simp)
    obtain ⟨st, hstpid, hstord, hproj, hsteps, sess', hsess', hsess'pid⟩ :=
      upload_chunk_next S x.1 x.2 sess url pid (hx ▸ hs) hp hurl
    have hrec := ih (upload_chunk S (some x.1.toRequest) x.2).1 sess' (hx ▸ hsess') hsess'pid
      (fun y hy => hsid y (by simp [hy])) (fun y hy => himg y (by simp [hy]))
    have hulist : upload_list S (x :: rest)
        = upload_list (upload_chunk S (some x.1.toRequest) x.2).1 rest := by
      simp [upload_list]
    rw [hulist]
    refine ⟨hrec.1.trans hproj, ?_⟩
    rw [hrec.2, hsteps]
    simp [List.filter_append, hstpid, hstord]

/-- A step persisted by a valid chunk upload: appended at the end of the steps
table, with the audio reference and duration taken from the TTS result (90
frames and no audio on failure), under a 200 "saved" response. -/
theorem upload_chunk_step (S : RecState) (c : ValidChunk) (env : ChunkEnv) (sess : Session)
    (url : String)
    (hs : S.sessions c.sessionId = some sess) (himg : env.image_save = .ok url) :
    ∃ st : Step,
      (upload_chunk S (some c.toRequest) env).1.db.steps = S.db.steps ++ [st] ∧
      st.duration_frames = (match env.tts with | some (_, d) => d | none => (90 : Int)) ∧
      st.audio_url = (match env.tts with | some (u, _) => some u | none => none) ∧
      st.order_index = c.orderIndex ∧
      (upload_chunk S (some c.toRequest) env).2.code = 200 ∧
      (upload_chunk S (some c.toRequest) env).2.status = some "saved" := by
  cases hfi : sess.first_image_url with
  | none =>
    cases hpi : sess.project_id with
    | none =>
      cases hdf : find_default_folder S.db with
      | none =>
        simp [upload_chunk, ValidChunk.toRequest, hs, himg, hpi, hfi, hdf, ofString_value,
          RecState.setSession]
      | some f =>
        simp [upload_chunk, ValidChunk.toRequest, hs, himg, hpi, hfi, hdf, ofString_value,
          RecState.setSession]
    | some pid =>
      simp [upload_chunk, ValidChunk.toRequest, hs, himg, hpi, hfi, ofString_value,
        RecState.setSession]
  | some v =>
    cases hpi : sess.project_id with
    | none =>
      cases hdf : find_default_folder S.db with
      | none =>
        simp [upload_chunk, ValidChunk.toRequest, hs, himg, hpi, hfi, hdf, ofString_value,
          RecState.setSession]
      | some f =>
        simp [upload_chunk, ValidChunk.toRequest, hs, himg, hpi, hfi, hdf, ofString_value,
          RecState.setSession]
    | some pid =>
      simp [upload_chunk, ValidChunk.toRequest, hs, himg, hpi, hfi, ofString_value,
        RecState.setSession]

/-- Polling an absent session answers `completed` and changes nothing. -/
theorem poll_absent (S : RecState) (sid : Nat) (thumb : Except Unit String)
    (h : S.sessions sid = none) :
    get_recording_status S sid thumb
      = (S, { code := 200, status := some "completed",
              message := some "Session completed or not found" }) := by
  simp [get_recording_status, h]

/-- Polling a session in status `uploading` answers `processing` and changes
nothing. -/
theorem poll_uploading (S : RecState) (sid : Nat) (sess : Session) (thumb : Except Unit String)
    (hs : S.sessions sid = some sess) (hst : sess.status = some "uploading") :
    get_recording_status S sid thumb
      = (S, { code := 200, status := some "processing", projectId := sess.project_id,
              uuid := sess.project_uuid, stepCount := some sess.step_count }) := by
  simp [get_recording_status, hs, hst]

/-- Polling a session in status `processing` whose project row is found
answers `completed` and removes the session, whatever the thumbnail state
and the thumbnail oracle do. -/
theorem poll_finalizes (S : RecState) (sid : Nat) (sess : Session) (pid : Nat) (q : Project)
    (thumb : Except Unit String)
    (hs : S.sessions sid = some sess) (hst : sess.status = some "processing")
    (hpi : sess.project_id = some pid)
    (hfind : S.db.projects.find? (fun p => p.id = pid) = some q) :
    (get_recording_status S sid thumb).2.status = some "completed" ∧
    (get_recording_status S sid thumb).1.sessions sid = none := by
  cases htn : q.thumbnail_url with
  | some t =>
    simp [get_recording_status, hs, hst, hpi, hfind, htn, RecState.delSession]
  | none =>
    cases hfi : sess.first_image_url with
    | none =>
      simp [get_recording_status, hs, hst, hpi, hfind, htn, hfi, RecState.delSession]
    | some img =>
      cases thumb with
      | ok t =>
        simp [get_recording_status, hs, hst, hpi, hfind, htn, hfi, RecState.delSession]
      | error e =>
        simp [get_recording_status, hs, hst, hpi, hfind, htn, hfi, RecState.delSession]

/-- Repeatedly polling an absent session keeps it absent and always answers
`completed`. -/
theorem poll_iter_absent (sid : Nat) (ts : List (Except Unit String)) :
    ∀ S : RecState, S.sessions sid = none →
      (poll_iter S sid ts).1.sessions sid = none ∧
      ∀ r ∈ (poll_iter S sid ts).2, r.status = some "completed" := by
  induction ts with
  | nil => intro S h; simp [poll_iter, h]
  | cons t ts ih =>
    intro S h
    obtain ⟨h1, h2⟩ := ih S h
    simp only [poll_iter, poll_absent S sid t h]
    refine ⟨h1, ?_⟩
    intro r hr
    rcases List.mem_cons.mp hr with h' | h'
    · simp [h']
    · exact h2 r h'

/-- Appending a matching element makes `find?` succeed. -/
theorem find?_concat (l : List Project) (p : Project) (pid : Nat) (hp : p.id = pid) :
    ∃ q, (l ++ [p]).find? (fun x => x.id = pid) = some q := by
  have h : ((l ++ [p]).find? (fun x => x.id = pid)).isSome := by
    rw [List.find?_isSome]
    exact ⟨p, by simp, by simp [hp]⟩
  exact Option.isSome_iff_exists.mp h

/-- A successful `stop_recording` always leaves the session with
`status='uploading'` and a project id whose row is present in the project
table, preserving `step_count` and `first_image_url`. -/
theorem stop_spec (S : RecState) (sid : Nat) (env : StopEnv) (sess : Session)
    (hs : S.sessions sid = some sess)
    (hok : (stop_recording S (some sid) env).2.code = 200) :
    ∃ pid u q,
      (stop_recording S (some sid) env).1.sessions sid = some
        { project_id := some pid, step_count := sess.step_count,
          first_image_url := sess.first_image_url, status := some "uploading",
          project_uuid := some u } ∧
      (stop_recording S (some sid) env).1.db.projects.find? (fun p => p.id = pid) = some q := by
  cases hpi : sess.project_id with
  | none =>
    cases hdf : find_default_folder S.db with
    | none => exact absurd hok (by simp [stop_recording, hs, hpi, hdf])
    | some f =>
      obtain ⟨q, hq⟩ := find?_concat S.db.projects
        { id := S.db.next_project_id, uuid := env.project_uuid,
          title := "New Demo - " ++ env.now, folder_id := f.id }
        S.db.next_project_id rfl
      refine ⟨S.db.next_project_id, env.project_uuid, q, ?_, ?_⟩ <;>
        simp [stop_recording, hs, hpi, hdf, RecState.setSession, hq]
  | some pid =>
    cases hf : S.db.projects.find? (fun p => p.id = pid) with
    | none => exact absurd hok (by simp [stop_recording, hs, hpi, hf])
    | some p =>
      refine ⟨pid, p.uuid, p, ?_, ?_⟩ <;>
        simp [stop_recording, hs, hpi, hf, RecState.setSession]

/-- `finish_recording` on a session in status `uploading` sets it to
`processing` in place. -/
theorem finish_sets_processing (S : RecState) (sid : Nat) (sess : Session)
    (hs : S.sessions sid = some sess) (hst : sess.status = some "uploading") :
    (finish_recording S (some sid)).1
      = S.setSession sid { sess with status := some "processing" } := by
  simp [finish_recording, hs, hst]

/-- Looking up the key just written by `setSession`. -/
theorem setSession_self (S : RecState) (sid : Nat) (s : Session) :
    (S.setSession sid s).sessions sid = some s := by
  simp [RecState.setSession]

/-- C1: for every sequence of valid (sequential) chunk uploads against one
session created by `start`, exactly one project is created — already by the
first chunk, and still exactly that one after all N chunks — and that project
ends up with exactly the N uploaded steps, whose `order_index` values are the
supplied `orderIndex` values in the order the requests were sent.  The
freshness hypothesis says the autoincrement counter is ahead of every stored
step's project reference, as the database guarantees. -/
theorem claim_C1_one_project_ordered_steps (S0 : RecState)
    (hwf : ∀ st ∈ S0.db.steps, st.project_id < S0.db.next_project_id)
    (c0 : ValidChunk × ChunkEnv) (rest : List (ValidChunk × ChunkEnv))
    (hsid : ∀ x ∈ c0 :: rest, x.1.sessionId = (start_recording S0).2)
    (himg : ∀ x ∈ c0 :: rest, ∃ url, x.2.image_save = .ok url) :
    ∃ p : Project,
      (upload_list (start_recording S0).1 [c0]).db.projects = S0.db.projects ++ [p] ∧
      (upload_list (start_recording S0).1 (c0 :: rest)).db.projects
        = S0.db.projects ++ [p] ∧
      ((upload_list (start_recording S0).1 (c0 :: rest)).db.steps.filter
          (fun st => st.project_id = p.id)).map (fun st => st.order_index)
        = (c0 :: rest).map (fun x => x.1.orderIndex) := by
  set sid := (start_recording S0).2 with hsidv
  have hstart : (start_recording S0).1.sessions sid = some
      { project_id := none, step_count := 0, first_image_url := none } := by
    simp [start_recording, hsidv]
  have hdb : (start_recording S0).1.db = S0.db := rfl
  obtain ⟨url0, hurl0⟩ := himg c0 (by simp)
  have hx0 : c0.1.sessionId = sid := hsid c0 (by simp)
  obtain ⟨p, st1, hpid, hst1pid, hst1ord, hproj1, hsteps1, sess', hsess', hsess'pid⟩ :=
    upload_chunk_first (start_recording S0).1 c0.1 c0.2 _ url0 (hx0 ▸ hstart) rfl hurl0
  have hrec := upload_list_inv sid p.id rest
    (upload_chunk (start_recording S0).1 (some c0.1.toRequest) c0.2).1
    sess' (hx0 ▸ hsess') hsess'pid
    (fun y hy => hsid y (by simp [hy])) (fun y hy => himg y (by simp [hy]))
  have hulist : upload_list (start_recording S0).1 (c0 :: rest)
      = upload_list (upload_chunk (start_recording S0).1 (some c0.1.toRequest) c0.2).1 rest := by
    simp [upload_list]
  have hone : upload_list (start_recording S0).1 [c0]
      = (upload_chunk (start_recording S0).1 (some c0.1.toRequest) c0.2).1 := by
    simp [upload_list]
  have hfilter0 : S0.db.steps.filter (fun st => st.project_id = p.id) = [] := by
    rw [List.filter_eq_nil_iff]
    intro st hst
    have h2 := hwf st hst
    simp only [decide_eq_true_eq, hpid, hdb]
    omega
  refine ⟨p, by rw [hone]; exact hdb ▸ hproj1, ?_, ?_⟩
  · rw [hulist, hrec.1, hproj1, hdb]
  · rw [hulist, hrec.2, hsteps1, hdb]
    simp [List.filter_append, hfilter0, hst1pid, hst1ord]

/-- C2: a session taken through a successful `stop` and then `finish` answers
`completed` to the first poll, which removes it from the live mapping, and
every subsequent poll of the same id answers `completed` as well
(absence-as-success). -/
theorem claim_C2_poll_after_finish_completed (S : RecState) (sid : Nat) (env : StopEnv)
    (sess : Session) (thumb : Except Unit String) (thumbs : List (Except Unit String))
    (hs : S.sessions sid = some sess)
    (hok : (stop_recording S (some sid) env).2.code = 200) :
    (get_recording_status
        (finish_recording (stop_recording S (some sid) env).1 (some sid)).1
        sid thumb).2.status = some "completed" ∧
    (get_recording_status
        (finish_recording (stop_recording S (some sid) env).1 (some sid)).1
        sid thumb).1.sessions sid = none ∧
    ∀ r ∈ (poll_iter
        (get_recording_status
          (finish_recording (stop_recording S (some sid) env).1 (some sid)).1
          sid thumb).1 sid thumbs).2, r.status = some "completed" := by
  obtain ⟨pid, u, q, hsess1, hfind⟩ := stop_spec S sid env sess hs hok
  have hfin := finish_sets_processing (stop_recording S (some sid) env).1 sid _ hsess1 rfl
  have hsess2 := setSession_self (stop_recording S (some sid) env).1 sid
    { project_id := some pid, step_count := sess.step_count,
      first_image_url := sess.first_image_url, status := some "processing",
      project_uuid := some u }
  rw [hfin]
  have hfind2 : ((stop_recording S (some sid) env).1.setSession sid
      { project_id := some pid, step_count := sess.step_count,
        first_image_url := sess.first_image_url, status := some "processing",
        project_uuid := some u }).db.projects.find? (fun p => p.id = pid) = some q := hfind
  obtain ⟨hc1, hc2⟩ := poll_finalizes _ sid _ pid q thumb hsess2 rfl rfl hfind2
  obtain ⟨hp1, hp2⟩ := poll_iter_absent sid thumbs _ hc2
  exact ⟨hc1, hc2, hp2⟩

/-- C4: any number of polls of a live session whose status is `uploading`
leave the whole state (database included, so no thumbnail finalization) and
the session entry untouched, and every one of them answers `processing`. -/
theorem claim_C4_poll_uploading_no_finalize (S : RecState) (sid : Nat) (sess : Session)
    (thumbs : List (Except Unit String))
    (hs : S.sessions sid = some sess) (hst : sess.status = some "uploading") :
    (poll_iter S sid thumbs).1 = S ∧
    (poll_iter S sid thumbs).1.sessions sid = some sess ∧
    ∀ r ∈ (poll_iter S sid thumbs).2, r.status = some "processing" := by
  have key : ∀ ts : List (Except Unit String),
      (poll_iter S sid ts).1 = S ∧
      ∀ r ∈ (poll_iter S sid ts).2, r.status = some "processing" := by
    intro ts
    induction ts with
    | nil => simp [poll_iter]
    | cons t ts ih =>
      simp only [poll_iter, poll_uploading S sid sess t hs hst]
      refine ⟨ih.1, ?_⟩
      intro r hr
      rcases List.mem_cons.mp hr with h' | h'
      · simp [h']
      · exact ih.2 r h'
  exact ⟨(key thumbs).1, by rw [(key thumbs).1]; exact hs, (key thumbs).2⟩

/-- C8: a chunk upload naming a session id that is not in the live mapping is
rejected with a 400 and leaves the whole state untouched: no step and no
project is created. -/
theorem claim_C8_unknown_session_no_effect (S : RecState) (r : ChunkRequest)
    (env : ChunkEnv) (sid : Nat)
    (h1 : r.sessionId = some sid) (h2 : S.sessions sid = none) :
    (upload_chunk S (some r) env).1 = S ∧ (upload_chunk S (some r) env).2.code = 400 := by
  by_cases hmiss : (r.sessionId = none ∨ r.orderIndex = none ∨ r.actionType = none ∨
      r.posX = none ∨ r.posY = none ∨ r.screenshotBase64 = none)
  · constructor <;> simp [upload_chunk, hmiss]
  · constructor <;> (simp [upload_chunk, hmiss, h1, h2]; split <;> rfl)

/-- C9: deleting an existing folder whose type is `system` always fails with
the protected-resource 400, whatever the folder's name, and the folder table
is unchanged. -/
theorem claim_C9_system_folder_protected (db : Db) (fid : Nat) (f : Folder)
    (hf : db.folders.find? (fun g => g.id = fid) = some f)
    (hsys : f.type = FolderType.system) :
    (delete_folder db fid).1 = db ∧ (delete_folder db fid).2.code = 400 ∧
    (delete_folder db fid).2.message = some "Cannot delete system folder" := by
  simp [delete_folder, hf, hsys]

/-- C7: a valid chunk upload whose narration synthesis fails (`generate_audio`
returned `None`) still persists a step, with the 90-frame fallback duration
and a null audio reference, and the request still answers 200 "saved". -/
theorem claim_C7_tts_failure_still_saves (S : RecState) (c : ValidChunk) (env : ChunkEnv)
    (sess : Session) (url : String)
    (hs : S.sessions c.sessionId = some sess) (himg : env.image_save = .ok url)
    (htts : env.tts = none) :
    (upload_chunk S (some c.toRequest) env).2.code = 200 ∧
    (upload_chunk S (some c.toRequest) env).2.status = some "saved" ∧
    ∃ st : Step, (upload_chunk S (some c.toRequest) env).1.db.steps = S.db.steps ++ [st] ∧
      st.duration_frames = 90 ∧ st.audio_url = none := by
  obtain ⟨st, hsteps, hdur, haud, _, hcode, hstat⟩ := upload_chunk_step S c env sess url hs himg
  refine ⟨hcode, hstat, st, hsteps, ?_, ?_⟩
  · rw [hdur, htts]
  · rw [haud, htts]

/-- C10: a successful `stop` sets the session status to `uploading`
unconditionally — in particular on a session whose status is already
`processing` (i.e. after `finish`) — so the next poll reports `processing`
and does not finalize or remove anything. -/
theorem claim_C10_stop_reverts_processing (S : RecState) (sid : Nat) (sess : Session)
    (env : StopEnv) (thumb : Except Unit String)
    (hs : S.sessions sid = some sess) (_hproc : sess.status = some "processing")
    (hok : (stop_recording S (some sid) env).2.code = 200) :
    ((stop_recording S (some sid) env).1.sessions sid).map (fun s => s.status)
      = some (some "uploading") ∧
    (get_recording_status (stop_recording S (some sid) env).1 sid thumb).2.status
      = some "processing" ∧
    (get_recording_status (stop_recording S (some sid) env).1 sid thumb).1
      = (stop_recording S (some sid) env).1 := by
  obtain ⟨pid, u, q, hsess1, hfind⟩ := stop_spec S sid env sess hs hok
  have hu := poll_uploading (stop_recording S (some sid) env).1 sid _ thumb hsess1 rfl
  refine ⟨by rw [hsess1]; rfl, by rw [hu], by rw [hu]⟩

/-- A server state with an empty database and no live sessions. -/
def empty_state : RecState := { db := {}, sessions := fun _ => none }

/-- C5, counterexample: the session state created by `start_recording` carries
no `status` value at all — in particular its status is not the string
"active" — and a poll on the fresh session observably reports "processing"
(the `session.get('status', 'processing')` fallback), not "active".  Only the
HTTP response of `start` carries the word "active". -/
theorem claim_C5_counterexample :
    ¬ (((start_recording empty_state).1.sessions (start_recording empty_state).2).map
        (fun s => s.status) = some (some "active")) ∧
    ((start_recording empty_state).1.sessions (start_recording empty_state).2).map
        (fun s => s.status) = some none ∧
    (get_recording_status (start_recording empty_state).1 (start_recording empty_state).2
        (Except.error ())).2.status = some "processing" := by
  decide

/-- C5, amended: `start()` always creates a new session state whose projectId
is null, whose stepCount is 0, whose firstMediaRef is null, and which stores
no status value (the "active" status exists only in the HTTP response), and
returns the new sessionId. -/
theorem claim_C5_start_creates_fresh_session (S : RecState) :
    (start_recording S).2 = S.next_session_id ∧
    (start_recording S).1.sessions (start_recording S).2
      = some { project_id := none, step_count := 0, first_image_url := none,
               status := none, project_uuid := none } := by
  exact ⟨rfl, by simp [start_recording]⟩

/-- C6: every step persisted by a chunk upload has a strictly positive
duration: when synthesis fails or is skipped (`generate_audio = none`) the
persisted duration is the fixed 90-frame fallback, and when synthesis
succeeds the computed duration — `calculate_duration_frames`, i.e.
`ceil(audio seconds × fps)`, or its own 90-frame fallback when measurement
raises — is still positive, given that synthesized audio has positive length
and fps is positive. -/
theorem claim_C6_duration_positive (fps : Nat) (text : String)
    (synth : Option (String × Option ℚ))
    (S : RecState) (c : ValidChunk) (env : ChunkEnv) (sess : Session) (url : String)
    (hfps : 0 < fps)
    (hlen : ∀ u s, synth = some (u, some s) → 0 < s)
    (hs : S.sessions c.sessionId = some sess) (himg : env.image_save = .ok url)
    (htts : env.tts = generate_audio fps text synth) :
    (∀ u d, generate_audio fps text synth = some (u, d) → 0 < d) ∧
    ∃ st : Step, (upload_chunk S (some c.toRequest) env).1.db.steps = S.db.steps ++ [st] ∧
      0 < st.duration_frames ∧
      (generate_audio fps text synth = none → st.duration_frames = 90) := by
  have hcalc : ∀ len? : Option ℚ, (∀ s, len? = some s → 0 < s) →
      0 < calculate_duration_frames fps len? := by
    intro len? hl
    cases len? with
    | none => norm_num [calculate_duration_frames]
    | some s =>
      have hs0 : 0 < s := hl s rfl
      have hprod : (0 : ℚ) < s * fps := mul_pos hs0 (by exact_mod_cast hfps)
      simpa [calculate_duration_frames] using Int.ceil_pos.mpr hprod
  have hpos : ∀ u d, generate_audio fps text synth = some (u, d) → 0 < d := by
    intro u d hgen
    unfold generate_audio at hgen
    by_cases hb : is_blank text = true
    · simp [hb] at hgen
    · rw [if_neg hb] at hgen
      cases hsy : synth with
      | none => rw [hsy] at hgen; exact absurd hgen (by simp)
      | some pr =>
        obtain ⟨u0, len?⟩ := pr
        rw [hsy] at hgen
        simp only [Option.some.injEq, Prod.mk.injEq] at hgen
        rw [← hgen.2]
        exact hcalc len? (fun s hs' => hlen u0 s (by rw [hsy, hs']))
  obtain ⟨st, hsteps, hdur, _, _, _, _⟩ := upload_chunk_step S c env sess url hs himg
  refine ⟨hpos, st, hsteps, ?_, ?_⟩
  · rw [hdur, htts]
    cases hgen : generate_audio fps text synth with
    | none => norm_num
    | some pr =>
      obtain ⟨u, d⟩ := pr
      simpa using hpos u d hgen
  · intro hnone
    rw [hdur, htts, hnone]

/-- The C3 scenario's initial state: the seeded "All Flows" system folder and
no live sessions. -/
def scenario_base : RecState :=
  { db := { folders := [{ id := 1, name := "All Flows", type := FolderType.system }],
            next_folder_id := 2 },
    sessions := fun _ => none }

/-- Oracles for the i-th chunk of the C3 scenario: image save succeeds, TTS
succeeds with the given duration. -/
def scenario_env (i : Nat) (d : Int) : ChunkEnv :=
  { image_save := .ok ("img" ++ toString i), tts := some ("aud" ++ toString i, d),
    now := "2024/01/01 00:00", project_uuid := "proj-uuid" }

/-- The i-th chunk of the C3 scenario: a click with the given order index. -/
def scenario_chunk (i : Int) : ValidChunk :=
  { sessionId := 0, orderIndex := i, actionType := .click, targetText := none,
    posX := 1, posY := 2, screenshotBase64 := "sc" }

/-- The C3 scenario up to and including `finish`: start, upload three click
chunks with order indexes 1, 2, 3 (durations 120, 150, 60 frames), stop,
finish. -/
def scenario_after_finish : RecState :=
  (finish_recording
    (stop_recording
      (upload_list (start_recording scenario_base).1
        [(scenario_chunk 1, scenario_env 1 120), (scenario_chunk 2, scenario_env 2 150),
         (scenario_chunk 3, scenario_env 3 60)])
      (some 0) { now := "n", project_uuid := "q-uuid" }).1
    (some 0)).1

/-- The first poll of the C3 scenario after `finish`. -/
def scenario_poll1 : RecState × PollResponse :=
  get_recording_status scenario_after_finish 0 (.ok "thumb")

/-- C3, counterexample: in the scenario start → 3 valid chunks (orderIndex
1,2,3, actionType click) → stop → finish, the very next `pollStatus` call does
NOT return "processing" as claimed — `finish` already moved the session to
`processing`, so this first poll finalizes and returns "completed". -/
theorem claim_C3_counterexample :
    scenario_poll1.2.status = some "completed" ∧
    ¬ scenario_poll1.2.status = some "processing" := by
  decide

/-- C3, amended: in the scenario start → 3 valid chunks (orderIndex 1,2,3,
actionType click, durations 120/150/60) → stop → finish, the next
`pollStatus` call already returns "completed" with stepCount 3 (finalizing
and removing the session), the poll after that also returns "completed", and
fetching the project details afterwards shows the 3 steps in order 1,2,3 with
`totalDurationFrames` equal to the sum 120+150+60 of the individual step
durations. -/
theorem claim_C3_scenario_amended :
    scenario_poll1.2.status = some "completed" ∧
    scenario_poll1.2.stepCount = some 3 ∧
    scenario_poll1.1.sessions 0 = none ∧
    (get_recording_status scenario_poll1.1 0 (.ok "thumb2")).2.status = some "completed" ∧
    (get_project_details scenario_poll1.1.db 1).map
        (fun x => x.2.1.map (fun st => st.order_index)) = some [1, 2, 3] ∧
    (get_project_details scenario_poll1.1.db 1).map
        (fun x => x.2.1.map (fun st => st.duration_frames)) = some [120, 150, 60] ∧
    (get_project_details scenario_poll1.1.db 1).map (fun x => x.2.2)
      = some (120 + 150 + 60) := by
  decide

/-- Chunk oracles for witnesses: image save succeeds, TTS fails. -/
def w_env_ok : ChunkEnv :=
  { image_save := .ok "img", tts := none, now := "t", project_uuid := "pu" }

/-- A witness chunk with the given order index, addressed to session 0. -/
def w_call (i : Int) : ValidChunk × ChunkEnv :=
  ({ sessionId := 0, orderIndex := i, actionType := .click, targetText := none,
     posX := 0, posY := 0, screenshotBase64 := "s" }, w_env_ok)

/-- Witness of C1 at three uploads with order indexes 5, 7, 6. -/
theorem claim_C1_witness :
    ∃ p : Project,
      (upload_list (start_recording empty_state).1 [w_call 5]).db.projects
        = empty_state.db.projects ++ [p] ∧
      (upload_list (start_recording empty_state).1
          (w_call 5 :: [w_call 7, w_call 6])).db.projects
        = empty_state.db.projects ++ [p] ∧
      ((upload_list (start_recording empty_state).1
          (w_call 5 :: [w_call 7, w_call 6])).db.steps.filter
          (fun st => st.project_id = p.id)).map (fun st => st.order_index)
        = (w_call 5 :: [w_call 7, w_call 6]).map (fun x => x.1.orderIndex) :=
  claim_C1_one_project_ordered_steps empty_state
    (by intro st hst; simp [empty_state] at hst)
    (w_call 5) [w_call 7, w_call 6]
    (by decide)
    (by intro x hx; exact ⟨"img", by fin_cases hx <;> rfl⟩)

/-- A live session in status `uploading` over a database containing its
project row, as left behind by `stop`, for the C2 witness. -/
def w2_sess : Session :=
  { project_id := some 1, step_count := 2, first_image_url := some "i",
    status := some "uploading", project_uuid := some "u1" }

/-- Server state for the C2 witness. -/
def w2_state : RecState :=
  { db := { projects := [{ id := 1, uuid := "u1", title := "T", folder_id := 1 }],
            next_project_id := 2 },
    sessions := fun k => if k = 0 then some w2_sess else none,
    next_session_id := 1 }

/-- Witness of C2: stop → finish → poll answers completed and removes the
session; two further polls answer completed. -/
theorem claim_C2_witness :
    (get_recording_status
        (finish_recording
          (stop_recording w2_state (some 0) { now := "n", project_uuid := "p" }).1
          (some 0)).1 0 (.ok "t")).2.status = some "completed" ∧
    (get_recording_status
        (finish_recording
          (stop_recording w2_state (some 0) { now := "n", project_uuid := "p" }).1
          (some 0)).1 0 (.ok "t")).1.sessions 0 = none ∧
    ∀ r ∈ (poll_iter
        (get_recording_status
          (finish_recording
            (stop_recording w2_state (some 0) { now := "n", project_uuid := "p" }).1
            (some 0)).1 0 (.ok "t")).1 0 [.ok "t2", .error ()]).2,
      r.status = some "completed" :=
  claim_C2_poll_after_finish_completed w2_state 0 { now := "n", project_uuid := "p" }
    w2_sess (.ok "t") [.ok "t2", .error ()] rfl (by decide)

/-- Server state for the C4 witness: one live session in status `uploading`. -/
def w4_state : RecState :=
  { db := {},
    sessions := fun k => if k = 0 then some w2_sess else none,
    next_session_id := 1 }

/-- Witness of C4 at two polls (one with a failing thumbnail oracle). -/
theorem claim_C4_witness :
    (poll_iter w4_state 0 [.ok "t", .error ()]).1 = w4_state ∧
    (poll_iter w4_state 0 [.ok "t", .error ()]).1.sessions 0 = some w2_sess ∧
    ∀ r ∈ (poll_iter w4_state 0 [.ok "t", .error ()]).2, r.status = some "processing" :=
  claim_C4_poll_uploading_no_finalize w4_state 0 w2_sess [.ok "t", .error ()] rfl rfl

/-- A fresh live session for upload witnesses. -/
def w6_sess : Session :=
  { project_id := none, step_count := 0, first_image_url := none }

/-- Server state for the C6/C7 witnesses: session 0 is live and fresh. -/
def w6_state : RecState :=
  { db := {},
    sessions := fun k => if k = 0 then some w6_sess else none,
    next_session_id := 1 }

/-- Chunk oracles for the C6 witness: TTS succeeded but duration measurement
raised, yielding the 90-frame fallback of `calculate_duration_frames`. -/
def w6_env : ChunkEnv :=
  { image_save := .ok "img", tts := some ("aud", 90), now := "t", project_uuid := "pu" }

/-- Witness of C6 at fps 30 on a synthesis whose length measurement failed. -/
theorem claim_C6_witness :
    (∀ u d, generate_audio 30 "Click on Btn" (some ("aud", none)) = some (u, d) → 0 < d) ∧
    ∃ st : Step,
      (upload_chunk w6_state (some (w_call 1).1.toRequest) w6_env).1.db.steps
        = w6_state.db.steps ++ [st] ∧
      0 < st.duration_frames ∧
      (generate_audio 30 "Click on Btn" (some ("aud", none)) = none →
        st.duration_frames = 90) :=
  claim_C6_duration_positive 30 "Click on Btn" (some ("aud", none))
    w6_state (w_call 1).1 w6_env w6_sess "img"
    (by decide) (by intro u s h; simp at h) rfl rfl (by decide)

/-- Witness of C7: a valid upload with failing TTS still saves a step with
duration 90 and no audio. -/
theorem claim_C7_witness :
    (upload_chunk w6_state (some (w_call 2).1.toRequest) w_env_ok).2.code = 200 ∧
    (upload_chunk w6_state (some (w_call 2).1.toRequest) w_env_ok).2.status = some "saved" ∧
    ∃ st : Step,
      (upload_chunk w6_state (some (w_call 2).1.toRequest) w_env_ok).1.db.steps
        = w6_state.db.steps ++ [st] ∧
      st.duration_frames = 90 ∧ st.audio_url = none :=
  claim_C7_tts_failure_still_saves w6_state (w_call 2).1 w_env_ok w6_sess "img" rfl rfl rfl

/-- The request of the C8 witness: well-formed fields but an unknown session
id. -/
def w8_req : ChunkRequest :=
  { sessionId := some 3, orderIndex := some 1, actionType := some "click",
    targetText := none, posX := some 0, posY := some 0, screenshotBase64 := some "s" }

/-- Witness of C8 on an empty server state. -/
theorem claim_C8_witness :
    (upload_chunk empty_state (some w8_req) w_env_ok).1 = empty_state ∧
    (upload_chunk empty_state (some w8_req) w_env_ok).2.code = 400 :=
  claim_C8_unknown_session_no_effect empty_state w8_req w_env_ok 3 rfl rfl

/-- A system folder with an arbitrary name, for the C9 witness. -/
def w9_db : Db :=
  { folders := [{ id := 1, name := "Anything", type := FolderType.system }] }

/-- Witness of C9: deleting the system folder named "Anything" is rejected. -/
theorem claim_C9_witness :
    (delete_folder w9_db 1).1 = w9_db ∧ (delete_folder w9_db 1).2.code = 400 ∧
    (delete_folder w9_db 1).2.message = some "Cannot delete system folder" :=
  claim_C9_system_folder_protected w9_db 1
    { id := 1, name := "Anything", type := FolderType.system } rfl rfl

/-- A session already in status `processing` (i.e. after `finish`), for the
C10 witness. -/
def w10_sess : Session :=
  { project_id := some 1, step_count := 3, first_image_url := some "i",
    status := some "processing", project_uuid := some "u1" }

/-- Server state for the C10 witness. -/
def w10_state : RecState :=
  { db := { projects := [{ id := 1, uuid := "u1", title := "T", folder_id := 1 }],
            next_project_id := 2 },
    sessions := fun k => if k = 0 then some w10_sess else none,
    next_session_id := 1 }

/-- Witness of C10: stop on a `processing` session reverts it to `uploading`,
and the next poll reports `processing` without finalizing. -/
theorem claim_C10_witness :
    ((stop_recording w10_state (some 0) { now := "n", project_uuid := "p" }).1.sessions 0).map
        (fun s => s.status) = some (some "uploading") ∧
    (get_recording_status
        (stop_recording w10_state (some 0) { now := "n", project_uuid := "p" }).1
        0 (.ok "t")).2.status = some "processing" ∧
    (get_recording_status
        (stop_recording w10_state (some 0) { now := "n", project_uuid := "p" }).1
        0 (.ok "t")).1
      = (stop_recording w10_state (some 0) { now := "n", project_uuid := "p" }).1 :=
  claim_C10_stop_reverts_processing w10_state 0 w10_sess
    { now := "n", project_uuid := "p" } (.ok "t") rfl rfl (by decide)

end Acro
